import Mathlib

/-!
Shallow embedding of `src/connbridge.c` (a bidirectional TCP connection bridge
that journals every byte stream to per-endpoint files) and proofs about it.

Modelling conventions:
* Machine byte streams and journal files are `List Nat`.
* Each blocking syscall site is driven by a *trace* of syscall outcomes
  (`ReadRes` for `read`, `WriteRes` for `write`, `AcceptRes` for `accept4`);
  a real execution always supplies an outcome, so exhaustion of a finite
  trace is reported through the artificial status `traceEnd` and never
  identified with any code path of the C source.
* `FILE *` streams never fail in the model (the journal lives on a local
  filesystem; `fopen`/`fsetpos`/`fgetpos`/`fwrite` failure paths of the C
  source are consequently unreachable here and noted where they occur).
* Socket addresses are `SockAddr`; `inet_ntop` is modelled by `ntop4`/`ntop6`.
-/

/-- Status results of `read_into_file` / `write_from_file`
(connbridge.c lines 26-36): success (`0`), `FILE_EOF` (`-1`),
`FILE_ERROR` (`-2`), plus the model-only `traceEnd` marking exhaustion of
the supplied syscall-outcome trace. -/
inductive FStatus where
  | ok
  | fileEof
  | fileError
  | traceEnd
deriving DecidableEq, Repr

/-- Buffer size used by both transfer loops (connbridge.c line 26). -/
def FILE_BUFSIZE : Nat := 8192

/-- Listener backlog (connbridge.c line 21). -/
def BACKLOG : Nat := 1000

/-- Outcome of one `read(fd, buf, FILE_BUFSIZE)` call on a peer socket:
interrupted (`EINTR`), would-block (`EAGAIN`/`EWOULDBLOCK`), an unrecoverable
errno (`rerr`), or a successful return carrying the bytes read (`chunk []`
is a zero return, i.e. end of stream). -/
inductive ReadRes where
  | eintr
  | eagain
  | rerr
  | chunk (data : List Nat)
deriving DecidableEq, Repr

/-- Model of `read_into_file` (connbridge.c lines 325-356): repeatedly read
from the socket and append to the journal, accumulating the processed byte
count in `c`.  `EINTR` retries, `EAGAIN`/`EWOULDBLOCK` returns success,
a zero-byte read returns `FILE_EOF` — and so does an unrecoverable read
error (line 343 prints a diagnostic and returns `FILE_EOF`, although the
function's own doc comment, lines 321-323, promises `FILE_ERROR` on error).
Each successful read is clamped to `FILE_BUFSIZE` (the kernel never returns
more than the requested count).  The `fwrite` failure path (`FILE_ERROR`,
line 352) is unreachable because journal writes are pure here. -/
def read_into_file : List ReadRes → List Nat → Nat → FStatus × List Nat × Nat
  | [], f, c => (.traceEnd, f, c)
  | .eintr :: tr, f, c => read_into_file tr f c
  | .eagain :: _, f, c => (.ok, f, c)
  | .rerr :: _, f, c => (.fileEof, f, c)
  | .chunk d :: tr, f, c =>
    if d = [] then (.fileEof, f, c)
    else read_into_file tr (f ++ d.take FILE_BUFSIZE) (c + (d.take FILE_BUFSIZE).length)

/-- Outcome of one `write(fd, buf + bufpos, bytesRead - bufpos)` call on a
peer socket: interrupted, would-block, an unrecoverable errno (`werr`), or a
successful return of `n` bytes written. -/
inductive WriteRes where
  | eintr
  | eagain
  | werr
  | wrote (n : Nat)
deriving DecidableEq, Repr

/-- Result of the inner per-chunk write loop of `write_from_file`. -/
inductive ChunkRes where
  | done
  | blocked
  | cerr
  | traceEnd
deriving DecidableEq, Repr

/-- Model of the inner loop of `write_from_file` (connbridge.c lines
395-426): write the chunk `buf[bufpos .. bytesRead)` to the socket.  `EINTR`
retries the write; `EAGAIN`/`EWOULDBLOCK` stops with `blocked`; a successful
write of `n` bytes advances `bufpos` by the actual kernel return, which
never exceeds the requested `bytesRead - bufpos`.  Returns the loop result,
the unconsumed trace, and the final `bufpos`. -/
def write_chunk (tr : List WriteRes) (bytesRead bufpos : Nat) :
    ChunkRes × List WriteRes × Nat :=
  if bufpos = bytesRead then (.done, tr, bufpos)
  else match tr with
    | [] => (.traceEnd, [], bufpos)
    | .eintr :: rest => write_chunk rest bytesRead bufpos
    | .eagain :: rest => (.blocked, rest, bufpos)
    | .werr :: rest => (.cerr, rest, bufpos)
    | .wrote n :: rest => write_chunk rest bytesRead (bufpos + min n (bytesRead - bufpos))

/-- Fuelled outer loop of `write_from_file` (connbridge.c lines 384-433):
`fread` a chunk of at most `FILE_BUFSIZE` bytes starting at `pos`, push it
through `write_chunk`, and update the replay cursor: after a complete chunk
the cursor moves to the end of the chunk (`fgetpos`, line 428); on
would-block it moves to the chunk start plus the partial count (`fsetpos` +
`fseek`, lines 402-417); a zero-byte `fread` means `feof` and returns
`FILE_EOF`.  The third component accumulates the total number of bytes
actually written to the socket.  Pure-stream failure paths (`fsetpos`/
`fgetpos`/`fread` errors) are unreachable here. -/
def wff_go (fuel : Nat) (tr : List WriteRes) (contents : List Nat) (pos acc : Nat) :
    FStatus × Nat × Nat :=
  match fuel with
  | 0 => (.traceEnd, pos, acc)
  | fuel + 1 =>
    let bytesRead := min FILE_BUFSIZE (contents.length - pos)
    if bytesRead = 0 then (.fileEof, pos, acc)
    else
      match write_chunk tr bytesRead 0 with
      | (.done, tr1, bufpos) => wff_go fuel tr1 contents (pos + bytesRead) (acc + bufpos)
      | (.blocked, _, bufpos) => (.ok, pos + bufpos, acc + bufpos)
      | (.cerr, _, _) => (.fileError, pos, acc)
      | (.traceEnd, _, bufpos) => (.traceEnd, pos + bufpos, acc + bufpos)

/-- Model of `write_from_file` (connbridge.c lines 370-434).  Each outer
iteration with a nonempty chunk consumes at least one trace element, so
`tr.length + 1` units of fuel always suffice; `traceEnd` can surface only
when the supplied trace itself runs out. -/
def write_from_file (tr : List WriteRes) (contents : List Nat) (pos : Nat) :
    FStatus × Nat × Nat :=
  wff_go (tr.length + 1) tr contents pos 0

/-- Model of `open_output_file` (connbridge.c lines 243-282): open the
journal in append+read mode, `fseek` to the end and store the end offset as
the initial replay cursor.  Given the file's current contents, it returns
the contents unchanged and the cursor at end-of-file. -/
def open_output_file (contents : List Nat) : List Nat × Nat :=
  (contents, contents.length)

/-! ### Address formatter (`satos`, connbridge.c lines 148-191) -/

/-- Socket address: IPv4 (four address bytes and a port), IPv6 (eight
16-bit groups and a port), or any other address family. -/
inductive SockAddr where
  | v4 (a b c d : Nat) (port : Nat)
  | v6 (groups : List Nat) (port : Nat)
  | other (family : Nat)
deriving DecidableEq, Repr

/-- Failure modes of the address formatter: the passed length is smaller
than the family's sockaddr size (`errno = EINVAL`, lines 159-162 and
170-173), or the address family is neither `AF_INET` nor `AF_INET6`
(`errno = EAFNOSUPPORT`, lines 180-182). -/
inductive SatosError where
  | truncatedAddress
  | unsupportedFamily
deriving DecidableEq, Repr

/-- Byte size of `struct sockaddr_in`. -/
def SIZEOF_SOCKADDR_IN : Nat := 16

/-- Byte size of `struct sockaddr_in6`. -/
def SIZEOF_SOCKADDR_IN6 : Nat := 28

/-- Model of `inet_ntop` for `AF_INET`: dotted decimal quad over the four
address bytes in network order. -/
def ntop4 (a b c d : Nat) : String :=
  toString a ++ "." ++ toString b ++ "." ++ toString c ++ "." ++ toString d

/-- Lowercase hexadecimal rendering of one 16-bit IPv6 group. -/
def hexGroup (n : Nat) : String :=
  String.mk (Nat.toDigits 16 (n % 65536))

/-- Length of the run of zero groups starting at index `i`. -/
def zeroRunAt (gs : List Nat) (i : Nat) : Nat :=
  ((gs.drop i).takeWhile (fun g => g = 0)).length

/-- Leftmost longest run of zero groups, as (start index, length). -/
def bestZeroRun (gs : List Nat) : Nat × Nat :=
  List.foldl
    (fun best i =>
      let len := zeroRunAt gs i
      if best.2 < len then (i, len) else best)
    (0, 0) (List.range gs.length)

/-- Model of `inet_ntop` for `AF_INET6`: colon-separated lowercase hex
groups, compressing the leftmost longest run of at least two zero groups
to `::` (the generic rendering; embedded-IPv4 special forms are not
modelled because no theorem depends on the group text). -/
def ntop6 (gs : List Nat) : String :=
  let best := bestZeroRun gs
  if best.2 < 2 then
    String.intercalate ":" (gs.map hexGroup)
  else
    String.intercalate ":" ((gs.take best.1).map hexGroup) ++ "::" ++
      String.intercalate ":" ((gs.drop (best.1 + best.2)).map hexGroup)

/-- Model of `satos` (connbridge.c lines 148-191): render an IPv4 address as
`A.B.C.D:PORT`, an IPv6 address as `[groups]:PORT`; reject a length smaller
than the family's sockaddr size and any other address family.  The result
buffer (62 bytes, line 152) always fits both renderings, so `snprintf`
truncation and the `rc < 0` path (line 185) cannot occur. -/
def satos : SockAddr → Nat → Except SatosError String
  | .v4 a b c d port, socklen =>
    if socklen < SIZEOF_SOCKADDR_IN then .error .truncatedAddress
    else .ok (ntop4 a b c d ++ ":" ++ toString port)
  | .v6 gs port, socklen =>
    if socklen < SIZEOF_SOCKADDR_IN6 then .error .truncatedAddress
    else .ok ("[" ++ ntop6 gs ++ "]:" ++ toString port)
  | .other _, _ => .error .unsupportedFamily

/-- Journal file names chosen by `bridge_init` (connbridge.c lines 642-659):
the source journal is named after the accepted peer address (line 643); the
destination journal is named after the *local* address of the destination
socket as returned by `getsockname` (lines 648-655), not after the dialed
destination peer address.  `destPeer` is the `connect` target (line 625);
it is carried here to document that it does not enter either name. -/
def bridge_init_journal_names (srcaddr : SockAddr) (srcaddrlen : Nat)
    (destPeer : SockAddr) (destLocal : SockAddr) (destLocalLen : Nat) :
    Except SatosError (String × String) := do
  let s ← satos srcaddr srcaddrlen
  let d ← satos destLocal destLocalLen
  pure (s, d)

/-! ### Acceptor (`accept_cb`, connbridge.c lines 764-787) -/

/-- Outcome of one `accept4` call: a new connection (identified by its fd)
or a failure with some errno (the C code does not inspect which). -/
inductive AcceptRes where
  | conn (fd : Nat)
  | aerr (code : Nat)
deriving DecidableEq, Repr

/-- Observable actions the acceptor could take during one dispatch. -/
inductive AcceptAct where
  | startBridge (fd : Nat)
  | logAccept (msg : String)
  | stopListener
deriving DecidableEq, Repr

/-- Model of the accept-drain loop of `accept_cb` (connbridge.c lines
775-786): accept connections and start a bridge on each until `accept4`
returns a negative result, at which point the loop breaks — without
inspecting `errno`, without logging, and without touching the listener's
watcher.  An exhausted trace ends the modelled dispatch. -/
def accept_cb : List AcceptRes → List AcceptAct
  | [] => []
  | .conn fd :: tr => .startBridge fd :: accept_cb tr
  | .aerr _ :: _ => []

/-- Whether an acceptor action is a diagnostic log. -/
def isAcceptLog : AcceptAct → Bool
  | .logAccept _ => true
  | _ => false

/-- Whether an acceptor action stops the listener's watcher. -/
def isStopListener : AcceptAct → Bool
  | .stopListener => true
  | _ => false

/-- Whether an accept trace element is a successful connection. -/
def isConn : AcceptRes → Bool
  | .conn _ => true
  | .aerr _ => false

/-- The bridge started for a successful accept, nothing for a failure. -/
def toStart : AcceptRes → Option AcceptAct
  | .conn fd => some (.startBridge fd)
  | .aerr _ => none

/-! ### Listener setup loop (`main`, connbridge.c lines 917-920) -/

/-- Model of the listener-setup loop
`for (info = airesult; info != NULL; info = airesult->ai_next)` — note the
advance expression reads `airesult->ai_next`, the *first* node's successor,
not `info->ai_next`.  `airesult` is the resolved source-address list,
`info` the current node (a suffix of it); the result is the list of nodes
visited within `fuel` iterations and whether the loop terminated. -/
def listener_loop_go {α : Type} (airesult : List α) :
    Nat → List α → List α × Bool
  | _, [] => ([], true)
  | 0, _ :: _ => ([], false)
  | fuel + 1, a :: _ =>
    let r := listener_loop_go airesult fuel (airesult.drop 1)
    (a :: r.1, r.2)

/-- Visits performed by the listener-setup loop of `main` on the resolved
source addresses, bounded by `fuel` iterations. -/
def listener_loop {α : Type} (airesult : List α) (fuel : Nat) : List α × Bool :=
  listener_loop_go airesult fuel airesult

/-- Socket-creation parameters used by `start_listener` for every address it
is given (connbridge.c lines 815-830): a stream socket with `SOCK_NONBLOCK`
and `SOCK_CLOEXEC`, `SO_REUSEADDR` enabled, and `listen` backlog `BACKLOG`. -/
structure ListenerParams where
  sockStream : Bool
  nonblock : Bool
  cloexec : Bool
  reuseaddr : Bool
  backlog : Nat
deriving DecidableEq, Repr

/-- The parameters `start_listener` requests from the kernel. -/
def start_listener_params : ListenerParams :=
  { sockStream := true, nonblock := true, cloexec := true,
    reuseaddr := true, backlog := BACKLOG }

/-! ### Bridge engine (`struct Bridge` and `bridge_cb`, connbridge.c) -/

/-- An `ev_io` interest mask restricted to `EV_READ` / `EV_WRITE`. -/
structure IOMask where
  rd : Bool
  wr : Bool
deriving DecidableEq, Repr

/-- Whether an interest mask requests no events at all. -/
def IOMask.isEmpty (m : IOMask) : Bool := !m.rd && !m.wr

/-- Model of `struct Bridge` (connbridge.c lines 56-113): the two journal
files with their replay cursors, the five state bits, and the interest
masks currently stored in the two watchers. -/
structure Bridge where
  srcFile : List Nat
  destFile : List Nat
  srcPos : Nat
  destPos : Nat
  eofFromSource : Bool
  sourceFlushed : Bool
  connectedToDestination : Bool
  eofFromDestination : Bool
  destinationFlushed : Bool
  srcEvents : IOMask
  destEvents : IOMask
deriving DecidableEq, Repr

/-- Observable actions a bridge dispatch can take: half-close shutdowns,
watcher control, the resource releases of `bridge_fini`, and diagnostic
lines on standard error. -/
inductive Act where
  | shutdownSrcRd
  | shutdownDestWr
  | shutdownDestRd
  | shutdownSrcWr
  | stopSrcWatcher
  | stopDestWatcher
  | startSrcWatcher
  | startDestWatcher
  | closeSrcFd
  | closeDestFd
  | closeSrcFile
  | closeDestFile
  | logError (msg : String)
deriving DecidableEq, Repr

/-- Actions of `bridge_fini` (connbridge.c lines 290-299): stop both
watchers, close both sockets, close both journal files. -/
def bridge_fini_acts : List Act :=
  [.stopSrcWatcher, .stopDestWatcher, .closeSrcFd, .closeDestFd,
   .closeSrcFile, .closeDestFile]

/-- How a dispatch of `bridge_cb` ends: normally, with the bridge destroyed
(`bridge_del`), or — model-only — with a syscall trace exhausted before the
dispatch finished. -/
inductive Outcome where
  | ok
  | destroyed
  | incomplete
deriving DecidableEq, Repr

/-- Result of one dispatch: the bridge state (for a destroyed bridge, its
state at the moment `bridge_del` ran), the actions taken in order, and the
outcome. -/
structure DispatchOut where
  state : Bridge
  acts : List Act
  outcome : Outcome
deriving DecidableEq, Repr

/-- Whether a dispatch action list contains no diagnostic log line. -/
def noLogErr : List Act → Bool
  | [] => true
  | .logError _ :: _ => false
  | _ :: tl => noLogErr tl

/-- Diagnostic printed when the watcher reports `EV_ERROR` (line 451). -/
def evErrorMsg : String := "Error in bridge callback"

/-- Diagnostic printed when connection completion fails (lines 463, 476). -/
def connErrMsg : String := "Unable to complete connection"

/-- Diagnostic printed when replaying the source journal fails (line 505). -/
def srcToDestErrMsg : String := "Error writing from source output file to destination"

/-- Diagnostic printed when replaying the destination journal fails (line 541). -/
def destToSrcErrMsg : String := "Error writing from destination output file to source"

/-- One "drain peer into journal" step of `bridge_cb` (lines 483-487 and
519-523): skipped entirely when EOF was already seen (`rc` stays `0`,
`count` stays `0`). -/
def drain_step (eofSeen : Bool) (tr : List ReadRes) (file : List Nat) :
    FStatus × List Nat × Nat :=
  if eofSeen then (.ok, file, 0) else read_into_file tr file 0

/-- One "replay journal to opposite peer" step of `bridge_cb` (lines
499-503 and 535-539): `write_from_file` is invoked iff the direction is not
flushed or the drain step just appended bytes; otherwise `rc` is set to
`FILE_EOF` directly. -/
def replay_step (flushed : Bool) (cnt : Nat) (tr : List WriteRes)
    (file : List Nat) (pos : Nat) : FStatus × Nat × Nat :=
  if !flushed || decide (0 < cnt) then write_from_file tr file pos
  else (.fileEof, pos, 0)

/-- Watcher recalibration and terminal check of `bridge_cb` (connbridge.c
lines 555-590): recompute both interest masks from the four state bits,
stop/re-register a watcher whose stored mask changed (restarting it only if
the new mask is nonempty), and destroy the bridge when both recomputed
masks are empty. -/
def recalibrate (s : Bridge) (eofSrc srcFlushed eofDest destFlushed : Bool)
    (srcFile destFile : List Nat) (srcPos destPos : Nat) (acts : List Act) :
    DispatchOut :=
  let srcMask : IOMask := ⟨!eofSrc, !destFlushed⟩
  let destMask : IOMask := ⟨!eofDest, !srcFlushed⟩
  let actsSrc : List Act :=
    if s.srcEvents ≠ srcMask then
      .stopSrcWatcher :: (if srcMask.isEmpty then [] else [.startSrcWatcher])
    else []
  let actsDest : List Act :=
    if s.destEvents ≠ destMask then
      .stopDestWatcher :: (if destMask.isEmpty then [] else [.startDestWatcher])
    else []
  let s5 : Bridge :=
    { srcFile := srcFile, destFile := destFile, srcPos := srcPos, destPos := destPos,
      eofFromSource := eofSrc, sourceFlushed := srcFlushed,
      connectedToDestination := s.connectedToDestination,
      eofFromDestination := eofDest, destinationFlushed := destFlushed,
      srcEvents := srcMask, destEvents := destMask }
  if srcMask.isEmpty && destMask.isEmpty then
    ⟨s5, acts ++ actsSrc ++ actsDest ++ bridge_fini_acts, .destroyed⟩
  else ⟨s5, acts ++ actsSrc ++ actsDest, .ok⟩

/-- Model of one dispatch of `bridge_cb` (connbridge.c lines 443-597).
Inputs beyond the bridge state: whether the watcher reported `EV_ERROR`;
the pending `SO_ERROR` value used by the connect-completion branch (lines
457-479, read via `getsockopt`, which is modelled as succeeding); and one
syscall-outcome trace per socket direction (`srcRd`: reads from the source,
`dstWr`: writes to the destination, `dstRd`: reads from the destination,
`srcWr`: writes to the source).  The four transfer steps run in source
order; each journal append, flag update and cursor update happens in place,
so a bridge destroyed mid-dispatch carries all updates made so far. -/
def bridge_cb (s : Bridge) (evError : Bool) (soErr : Nat)
    (srcRd dstRd : List ReadRes) (dstWr srcWr : List WriteRes) : DispatchOut :=
  if evError then
    ⟨s, Act.logError evErrorMsg :: bridge_fini_acts, .destroyed⟩
  else if s.connectedToDestination = false then
    if soErr = 0 then
      ⟨{ s with
          connectedToDestination := true
          srcEvents := ⟨true, false⟩
          destEvents := ⟨true, false⟩ },
        [.stopDestWatcher, .startSrcWatcher, .startDestWatcher], .ok⟩
    else ⟨s, Act.logError connErrMsg :: bridge_fini_acts, .destroyed⟩
  else
    let r1 := drain_step s.eofFromSource srcRd s.srcFile
    if r1.1 = .traceEnd then ⟨{ s with srcFile := r1.2.1 }, [], .incomplete⟩
    else
    let eofSrc1 := s.eofFromSource || decide (r1.1 = .fileEof)
    let acts1 : List Act := if r1.1 = .fileEof then [.shutdownSrcRd] else []
    let r2 := replay_step s.sourceFlushed r1.2.2 dstWr r1.2.1 s.srcPos
    if r2.1 = .traceEnd then
      ⟨{ s with
          srcFile := r1.2.1
          srcPos := r2.2.1
          eofFromSource := eofSrc1 },
        acts1, .incomplete⟩
    else if r2.1 = .fileError then
      ⟨{ s with
          srcFile := r1.2.1
          srcPos := r2.2.1
          eofFromSource := eofSrc1 },
        acts1 ++ [.logError srcToDestErrMsg] ++ bridge_fini_acts, .destroyed⟩
    else
    let srcFlushed2 := decide (r2.1 = .fileEof)
    let acts2 := acts1 ++ (if srcFlushed2 && eofSrc1 then [Act.shutdownDestWr] else [])
    let r3 := drain_step s.eofFromDestination dstRd s.destFile
    if r3.1 = .traceEnd then
      ⟨{ s with
          srcFile := r1.2.1
          srcPos := r2.2.1
          eofFromSource := eofSrc1
          sourceFlushed := srcFlushed2
          destFile := r3.2.1 },
        acts2, .incomplete⟩
    else
    let eofDest3 := s.eofFromDestination || decide (r3.1 = .fileEof)
    let acts3 := acts2 ++ (if r3.1 = .fileEof then [Act.shutdownDestRd] else [])
    let r4 := replay_step s.destinationFlushed r3.2.2 srcWr r3.2.1 s.destPos
    if r4.1 = .traceEnd then
      ⟨{ s with
          srcFile := r1.2.1
          srcPos := r2.2.1
          eofFromSource := eofSrc1
          sourceFlushed := srcFlushed2
          destFile := r3.2.1
          destPos := r4.2.1
          eofFromDestination := eofDest3 },
        acts3, .incomplete⟩
    else if r4.1 = .fileError then
      ⟨{ s with
          srcFile := r1.2.1
          srcPos := r2.2.1
          eofFromSource := eofSrc1
          sourceFlushed := srcFlushed2
          destFile := r3.2.1
          destPos := r4.2.1
          eofFromDestination := eofDest3 },
        acts3 ++ [.logError destToSrcErrMsg] ++ bridge_fini_acts, .destroyed⟩
    else
    let destFlushed4 := decide (r4.1 = .fileEof)
    let acts4 := acts3 ++ (if destFlushed4 && eofDest3 then [Act.shutdownSrcWr] else [])
    recalibrate s eofSrc1 srcFlushed2 eofDest3 destFlushed4
      r1.2.1 r3.2.1 r2.2.1 r4.2.1 acts4

/-- Model of the bridge state produced by `bridge_init` (connbridge.c lines
610-691) for a bridge whose journals currently hold the given contents:
both replay cursors start at end-of-file (via `open_output_file`), no EOF
seen, both directions flushed; when the upstream `connect` completed
synchronously both watchers watch for reads, otherwise the destination
watcher waits for write-readiness (`srcwatcher` is initialised with
`EV_READ` but not started, line 662). -/
def bridge_init (srcContents destContents : List Nat) (connected : Bool) : Bridge :=
  { srcFile := (open_output_file srcContents).1,
    destFile := (open_output_file destContents).1,
    srcPos := (open_output_file srcContents).2,
    destPos := (open_output_file destContents).2,
    eofFromSource := false, sourceFlushed := true,
    connectedToDestination := connected,
    eofFromDestination := false, destinationFlushed := true,
    srcEvents := ⟨true, false⟩,
    destEvents := if connected then ⟨true, false⟩ else ⟨false, true⟩ }

/-- A connected bridge that has already seen source EOF with everything
drained, whose source watcher is stopped, and that is about to receive EOF
from the destination: one more dispatch reaches the terminal state. -/
def exampleTerminalBridge : Bridge :=
  { srcFile := [], destFile := [], srcPos := 0, destPos := 0,
    eofFromSource := true, sourceFlushed := true,
    connectedToDestination := true,
    eofFromDestination := false, destinationFlushed := true,
    srcEvents := ⟨false, false⟩, destEvents := ⟨true, false⟩ }

/-! ### Argument handling (`main`, connbridge.c lines 866-884) -/

/-- How `main` starts: either the usage-and-nonzero-exit path (fewer than
four positional arguments, lines 877-880) or proceeding with the first four
positional arguments (lines 881-884). -/
inductive MainStart where
  | usageExit
  | proceed (srcnode srcservice destnode destservice : String)
deriving DecidableEq, Repr

/-- Model of the argument check of `main`: `argv` includes the program name
at index 0; `argc <= 4` prints usage and exits, otherwise `argv[1..4]` are
used and any further arguments are never read. -/
def parse_args (argv : List String) : MainStart :=
  if argv.length ≤ 4 then .usageExit
  else .proceed (argv.getD 1 "") (argv.getD 2 "") (argv.getD 3 "") (argv.getD 4 "")

/-! ## Lemmas about the journal store -/

/-- `read_into_file` only ever appends to the journal. -/
theorem read_into_file_extends (tr : List ReadRes) (f : List Nat) (c : Nat) :
    ∃ d, (read_into_file tr f c).2.1 = f ++ d := by
  induction tr generalizing f c with
  | nil => exact ⟨[], by simp [read_into_file]⟩
  | cons hd tl ih =>
    cases hd with
    | eintr => simpa [read_into_file] using ih f c
    | eagain => exact ⟨[], by simp [read_into_file]⟩
    | rerr => exact ⟨[], by simp [read_into_file]⟩
    | chunk d =>
      by_cases hd : d = []
      · exact ⟨[], by simp [read_into_file, hd]⟩
      · obtain ⟨e, he⟩ := ih (f ++ d.take FILE_BUFSIZE) (c + (d.take FILE_BUFSIZE).length)
        refine ⟨d.take FILE_BUFSIZE ++ e, ?_⟩
        simp only [read_into_file, hd, if_false, ite_false]
        rw [he, List.append_assoc]

/-- The byte counter of `read_into_file` never decreases. -/
theorem read_into_file_count_mono (tr : List ReadRes) (f : List Nat) (c : Nat) :
    c ≤ (read_into_file tr f c).2.2 := by
  induction tr generalizing f c with
  | nil => simp [read_into_file]
  | cons hd tl ih =>
    cases hd with
    | eintr => simpa [read_into_file] using ih f c
    | eagain => simp [read_into_file]
    | rerr => simp [read_into_file]
    | chunk d =>
      by_cases hd : d = []
      · simp [read_into_file, hd]
      · have h := ih (f ++ d.take FILE_BUFSIZE) (c + (d.take FILE_BUFSIZE).length)
        simp only [read_into_file, hd, if_false]
        omega

/-- If `read_into_file` reports zero processed bytes, the journal is
unchanged. -/
theorem read_into_file_count_zero (tr : List ReadRes) (f : List Nat) (c : Nat)
    (h : (read_into_file tr f c).2.2 = c) : (read_into_file tr f c).2.1 = f := by
  induction tr generalizing f c with
  | nil => simp [read_into_file]
  | cons hd tl ih =>
    cases hd with
    | eintr => exact ih f c (by simpa [read_into_file] using h)
    | eagain => simp [read_into_file]
    | rerr => simp [read_into_file]
    | chunk d =>
      by_cases hd : d = []
      · simp [read_into_file, hd]
      · exfalso
        simp only [read_into_file, hd, if_false] at h
        have hmono := read_into_file_count_mono tl (f ++ d.take FILE_BUFSIZE)
          (c + (d.take FILE_BUFSIZE).length)
        have hlen : 0 < (d.take FILE_BUFSIZE).length := by
          have : d.length ≠ 0 := fun hz => hd (List.length_eq_zero.mp hz)
          simp [List.length_take, FILE_BUFSIZE]
          omega
        omega

/-- `write_chunk` at a completed chunk returns immediately. -/
theorem write_chunk_self (tr : List WriteRes) (n : Nat) :
    write_chunk tr n n = (.done, tr, n) := by
  cases tr with
  | nil => simp [write_chunk]
  | cons hd tl => cases hd <;> simp [write_chunk]

/-- A `write_chunk` run that completes the chunk ends with
`bufpos = bytesRead`. -/
theorem write_chunk_done (tr : List WriteRes) (n b : Nat)
    (h : (write_chunk tr n b).1 = .done) : (write_chunk tr n b).2.2 = n := by
  induction tr generalizing b with
  | nil =>
    by_cases hb : b = n
    · simp [write_chunk, hb]
    · simp [write_chunk, hb] at h
  | cons hd tl ih =>
    by_cases hb : b = n
    · rw [hb, write_chunk_self]
    · cases hd with
      | eintr =>
        have h' : (write_chunk tl n b).1 = .done := by simpa [write_chunk, hb] using h
        simpa [write_chunk, hb] using ih b h'
      | eagain => simp [write_chunk, hb] at h
      | werr => simp [write_chunk, hb] at h
      | wrote m =>
        have h' : (write_chunk tl n (b + min m (n - b))).1 = .done := by
          simpa [write_chunk, hb] using h
        simpa [write_chunk, hb] using ih (b + min m (n - b)) h'

/-- The final `bufpos` of `write_chunk` stays within the chunk. -/
theorem write_chunk_bufpos_le (tr : List WriteRes) (n b : Nat) (hb : b ≤ n) :
    b ≤ (write_chunk tr n b).2.2 ∧ (write_chunk tr n b).2.2 ≤ n := by
  induction tr generalizing b with
  | nil =>
    by_cases hbn : b = n <;> simp [write_chunk, hbn] <;> omega
  | cons hd tl ih =>
    by_cases hbn : b = n
    · rw [hbn, write_chunk_self]; simp
    · cases hd with
      | eintr => simpa [write_chunk, hbn] using ih b hb
      | eagain => simp [write_chunk, hbn]; omega
      | werr => simp [write_chunk, hbn]; omega
      | wrote m =>
        have h1 : b + min m (n - b) ≤ n := by omega
        have h2 := ih (b + min m (n - b)) h1
        simp only [write_chunk, hbn, if_false]
        constructor
        · exact le_trans (by omega) h2.1
        · exact h2.2

/-- Accounting in the outer replay loop: when it stops on would-block, the
cursor has advanced by exactly the accumulated number of bytes written. -/
theorem wff_go_acc (fuel : Nat) :
    ∀ (tr : List WriteRes) (contents : List Nat) (pos acc : Nat),
    (wff_go fuel tr contents pos acc).1 = .ok →
    (wff_go fuel tr contents pos acc).2.1 + acc
      = (wff_go fuel tr contents pos acc).2.2 + pos := by
  induction fuel with
  | zero => intro tr c pos acc h; simp [wff_go] at h
  | succ n ih =>
    intro tr c pos acc h
    by_cases hbr : min FILE_BUFSIZE (c.length - pos) = 0
    · simp [wff_go, hbr] at h
    · rcases hwc : write_chunk tr (min FILE_BUFSIZE (c.length - pos)) 0 with ⟨cr, tr1, bp⟩
      cases cr with
      | done =>
        have hbp : bp = min FILE_BUFSIZE (c.length - pos) := by
          have := write_chunk_done tr (min FILE_BUFSIZE (c.length - pos)) 0
          rw [hwc] at this
          exact this rfl
        have h' : (wff_go n tr1 c (pos + min FILE_BUFSIZE (c.length - pos)) (acc + bp)).1
            = .ok := by
          simpa [wff_go, hbr, hwc] using h
        have := ih tr1 c (pos + min FILE_BUFSIZE (c.length - pos)) (acc + bp) h'
        simp only [wff_go, hbr, hwc, if_false, ite_false] at h ⊢
        omega
      | blocked => simp [wff_go, hbr, hwc]; omega
      | cerr => simp [wff_go, hbr, hwc] at h
      | traceEnd => simp [wff_go, hbr, hwc] at h

/-- The outer replay loop never moves the cursor backwards, and never past
end-of-file. -/
theorem wff_go_bounds (fuel : Nat) :
    ∀ (tr : List WriteRes) (contents : List Nat) (pos acc : Nat),
    pos ≤ contents.length →
    pos ≤ (wff_go fuel tr contents pos acc).2.1
    ∧ (wff_go fuel tr contents pos acc).2.1 ≤ contents.length := by
  induction fuel with
  | zero => intro tr c pos acc h; simp [wff_go]; omega
  | succ n ih =>
    intro tr c pos acc h
    by_cases hbr : min FILE_BUFSIZE (c.length - pos) = 0
    · simp [wff_go, hbr]; omega
    · rcases hwc : write_chunk tr (min FILE_BUFSIZE (c.length - pos)) 0 with ⟨cr, tr1, bp⟩
      have hbp : bp ≤ min FILE_BUFSIZE (c.length - pos) := by
        have := write_chunk_bufpos_le tr (min FILE_BUFSIZE (c.length - pos)) 0 (by omega)
        rw [hwc] at this
        exact this.2
      cases cr with
      | done =>
        have h' : pos + min FILE_BUFSIZE (c.length - pos) ≤ c.length := by omega
        have := ih tr1 c (pos + min FILE_BUFSIZE (c.length - pos)) (acc + bp) h'
        simp only [wff_go, hbr, hwc, if_false, ite_false]
        omega
      | blocked => simp [wff_go, hbr, hwc]; omega
      | cerr => simp [wff_go, hbr, hwc]; omega
      | traceEnd => simp [wff_go, hbr, hwc]; omega

/-- When the outer replay loop reports `FILE_EOF`, the cursor sits exactly
at end-of-file. -/
theorem wff_go_eof (fuel : Nat) :
    ∀ (tr : List WriteRes) (contents : List Nat) (pos acc : Nat),
    pos ≤ contents.length →
    (wff_go fuel tr contents pos acc).1 = .fileEof →
    (wff_go fuel tr contents pos acc).2.1 = contents.length := by
  induction fuel with
  | zero => intro tr c pos acc h he; simp [wff_go] at he
  | succ n ih =>
    intro tr c pos acc h he
    by_cases hbr : min FILE_BUFSIZE (c.length - pos) = 0
    · simp only [wff_go, hbr, if_true, ite_true]
      have : FILE_BUFSIZE = 8192 := rfl
      omega
    · rcases hwc : write_chunk tr (min FILE_BUFSIZE (c.length - pos)) 0 with ⟨cr, tr1, bp⟩
      cases cr with
      | done =>
        have h' : pos + min FILE_BUFSIZE (c.length - pos) ≤ c.length := by omega
        have he' : (wff_go n tr1 c (pos + min FILE_BUFSIZE (c.length - pos)) (acc + bp)).1
            = .fileEof := by simpa [wff_go, hbr, hwc] using he
        have := ih tr1 c (pos + min FILE_BUFSIZE (c.length - pos)) (acc + bp) h' he'
        simpa [wff_go, hbr, hwc] using this
      | blocked => simp [wff_go, hbr, hwc] at he
      | cerr => simp [wff_go, hbr, hwc] at he
      | traceEnd => simp [wff_go, hbr, hwc] at he

/-- `write_from_file` accounting on would-block (claim C5's core). -/
theorem write_from_file_acc (tr : List WriteRes) (contents : List Nat) (pos : Nat)
    (h : (write_from_file tr contents pos).1 = .ok) :
    (write_from_file tr contents pos).2.1 = pos + (write_from_file tr contents pos).2.2 := by
  have := wff_go_acc (tr.length + 1) tr contents pos 0 h
  unfold write_from_file at this ⊢
  omega

/-- `write_from_file` keeps the cursor within the file. -/
theorem write_from_file_bounds (tr : List WriteRes) (contents : List Nat) (pos : Nat)
    (h : pos ≤ contents.length) :
    pos ≤ (write_from_file tr contents pos).2.1
    ∧ (write_from_file tr contents pos).2.1 ≤ contents.length :=
  wff_go_bounds (tr.length + 1) tr contents pos 0 h

/-- `write_from_file` reporting `FILE_EOF` leaves the cursor at the write
cursor (end-of-file). -/
theorem write_from_file_eof (tr : List WriteRes) (contents : List Nat) (pos : Nat)
    (h : pos ≤ contents.length) (he : (write_from_file tr contents pos).1 = .fileEof) :
    (write_from_file tr contents pos).2.1 = contents.length :=
  wff_go_eof (tr.length + 1) tr contents pos 0 h he

/-- The drain step only appends to the journal. -/
theorem drain_step_extends (eofSeen : Bool) (tr : List ReadRes) (f : List Nat) :
    ∃ d, (drain_step eofSeen tr f).2.1 = f ++ d := by
  cases eofSeen with
  | true => exact ⟨[], by simp [drain_step]⟩
  | false => simpa [drain_step] using read_into_file_extends tr f 0

/-- The drain step never shrinks the journal. -/
theorem drain_step_len (eofSeen : Bool) (tr : List ReadRes) (f : List Nat) :
    f.length ≤ (drain_step eofSeen tr f).2.1.length := by
  obtain ⟨d, hd⟩ := drain_step_extends eofSeen tr f
  simp [hd]

/-- A drain step that processed zero bytes left the journal unchanged. -/
theorem drain_step_count_zero (eofSeen : Bool) (tr : List ReadRes) (f : List Nat)
    (h : (drain_step eofSeen tr f).2.2 = 0) : (drain_step eofSeen tr f).2.1 = f := by
  cases eofSeen with
  | true => simp [drain_step]
  | false =>
    simp only [drain_step, Bool.false_eq_true, if_false, ite_false] at h ⊢
    exact read_into_file_count_zero tr f 0 h

/-- A replay step keeps the cursor between its old value and end-of-file. -/
theorem replay_step_bounds (flushed : Bool) (cnt : Nat) (tr : List WriteRes)
    (file : List Nat) (pos : Nat) (h : pos ≤ file.length) :
    pos ≤ (replay_step flushed cnt tr file pos).2.1
    ∧ (replay_step flushed cnt tr file pos).2.1 ≤ file.length := by
  unfold replay_step
  by_cases hc : (!flushed || decide (0 < cnt)) = true
  · simpa [hc] using write_from_file_bounds tr file pos h
  · simp [hc] at h ⊢
    omega

/-- A replay step that reports `FILE_EOF` leaves the cursor at end-of-file,
provided the cursor was within the file and a previously-flushed direction
with no fresh bytes really had its cursor at end-of-file. -/
theorem replay_step_eof (flushed : Bool) (cnt : Nat) (tr : List WriteRes)
    (file : List Nat) (pos : Nat) (h1 : pos ≤ file.length)
    (h2 : flushed = true → cnt = 0 → pos = file.length)
    (he : (replay_step flushed cnt tr file pos).1 = .fileEof) :
    (replay_step flushed cnt tr file pos).2.1 = file.length := by
  unfold replay_step at he ⊢
  by_cases hc : (!flushed || decide (0 < cnt)) = true
  · rw [if_pos hc] at he ⊢
    exact write_from_file_eof tr file pos h1 he
  · rw [if_neg hc] at he ⊢
    simp only [Bool.or_eq_true, Bool.not_eq_true', decide_eq_true_eq] at hc
    push_neg at hc
    exact h2 (Bool.ne_false_iff.mp hc.1) (by omega)

/-! ## Claim theorems -/

/-- Claim C9 (confirmed): the address formatter renders an IPv4 socket
address as `A.B.C.D:PORT` and an IPv6 socket address as `[addr]:PORT`; any
other address family fails with the unsupported-family error, and a passed
length smaller than the family's sockaddr size fails with the
truncated-address error. -/
theorem C9_satos_format :
    (∀ a b c d p socklen, SIZEOF_SOCKADDR_IN ≤ socklen →
      satos (.v4 a b c d p) socklen = .ok (ntop4 a b c d ++ ":" ++ toString p))
  ∧ (∀ gs p socklen, SIZEOF_SOCKADDR_IN6 ≤ socklen →
      satos (.v6 gs p) socklen = .ok ("[" ++ ntop6 gs ++ "]:" ++ toString p))
  ∧ (∀ fam socklen, satos (.other fam) socklen = .error .unsupportedFamily)
  ∧ (∀ a b c d p socklen, socklen < SIZEOF_SOCKADDR_IN →
      satos (.v4 a b c d p) socklen = .error .truncatedAddress)
  ∧ (∀ gs p socklen, socklen < SIZEOF_SOCKADDR_IN6 →
      satos (.v6 gs p) socklen = .error .truncatedAddress) := by
  refine ⟨?_, ?_, ?_, ?_, ?_⟩
  · intro a b c d p socklen h
    simp [satos, Nat.not_lt.mpr h]
  · intro gs p socklen h
    simp [satos, Nat.not_lt.mpr h]
  · intro fam socklen
    simp [satos]
  · intro a b c d p socklen h
    simp [satos, h]
  · intro gs p socklen h
    simp [satos, h]

/-- Witness for C9 at the spec's example addresses `127.0.0.1:54321` and
`[::1]:8080`. -/
theorem C9_satos_format_w :
    (SIZEOF_SOCKADDR_IN ≤ 16
      ∧ satos (.v4 127 0 0 1 54321) 16 = .ok (ntop4 127 0 0 1 ++ ":" ++ toString 54321))
  ∧ (SIZEOF_SOCKADDR_IN6 ≤ 28
      ∧ satos (.v6 [0, 0, 0, 0, 0, 0, 0, 1] 8080) 28
          = .ok ("[" ++ ntop6 [0, 0, 0, 0, 0, 0, 0, 1] ++ "]:" ++ toString 8080))
  ∧ satos (.other 5) 99 = .error .unsupportedFamily
  ∧ (15 < SIZEOF_SOCKADDR_IN
      ∧ satos (.v4 1 2 3 4 5) 15 = .error .truncatedAddress)
  ∧ (27 < SIZEOF_SOCKADDR_IN6
      ∧ satos (.v6 [0, 0, 0, 0, 0, 0, 0, 1] 8080) 27 = .error .truncatedAddress) :=
  ⟨⟨by decide, C9_satos_format.1 127 0 0 1 54321 16 (by decide)⟩,
   ⟨by decide, C9_satos_format.2.1 [0, 0, 0, 0, 0, 0, 0, 1] 8080 28 (by decide)⟩,
   C9_satos_format.2.2.1 5 99,
   ⟨by decide, C9_satos_format.2.2.2.1 1 2 3 4 5 15 (by decide)⟩,
   ⟨by decide, C9_satos_format.2.2.2.2 [0, 0, 0, 0, 0, 0, 0, 1] 8080 27 (by decide)⟩⟩

/-- Claim C10 (confirmed): with at least four positional arguments, `main`
proceeds using `argv[1..4]` as srcnode, srcservice, destnode, destservice
and never reads further arguments (appending extras does not change the
result); the usage-and-exit path fires exactly when fewer than four
positional arguments (i.e. `argc <= 4`, program name included) are given. -/
theorem C10_arg_handling :
    (∀ argv : List String, 5 ≤ argv.length →
      parse_args argv
        = .proceed (argv.getD 1 "") (argv.getD 2 "") (argv.getD 3 "") (argv.getD 4 ""))
  ∧ (∀ argv : List String, parse_args argv = .usageExit ↔ argv.length - 1 < 4)
  ∧ (∀ argv extra : List String, 5 ≤ argv.length →
      parse_args (argv ++ extra) = parse_args argv) := by
  refine ⟨?_, ?_, ?_⟩
  · intro argv h
    simp [parse_args, Nat.not_le.mpr (by omega : 4 < argv.length)]
  · intro argv
    unfold parse_args
    by_cases h : argv.length ≤ 4
    · simp [h]; omega
    · simp [h]; omega
  · intro argv extra h
    have h1 : ¬argv.length ≤ 4 := by omega
    have h2 : ¬(argv ++ extra).length ≤ 4 := by simp; omega
    have hg : ∀ i, i < argv.length → (argv ++ extra).getD i "" = argv.getD i "" := by
      intro i hi
      simp [List.getD, List.getElem?_append_left hi]
    simp only [parse_args, h1, h2, if_false, ite_false]
    rw [hg 1 (by omega), hg 2 (by omega), hg 3 (by omega), hg 4 (by omega)]

/-- Witness for C10: seven arguments (prog plus six positional), the first
four used, the extras ignored; four positional arguments do not trigger
usage, three do. -/
theorem C10_arg_handling_w :
    (5 ≤ (["p", "a", "b", "c", "d"] : List String).length
      ∧ parse_args ["p", "a", "b", "c", "d"]
          = .proceed ((["p", "a", "b", "c", "d"] : List String).getD 1 "")
              ((["p", "a", "b", "c", "d"] : List String).getD 2 "")
              ((["p", "a", "b", "c", "d"] : List String).getD 3 "")
              ((["p", "a", "b", "c", "d"] : List String).getD 4 ""))
  ∧ (parse_args ["p", "a", "b", "c"] = .usageExit ↔
      (["p", "a", "b", "c"] : List String).length - 1 < 4)
  ∧ (5 ≤ (["p", "a", "b", "c", "d"] : List String).length
      ∧ parse_args (["p", "a", "b", "c", "d"] ++ ["e", "f"])
          = parse_args ["p", "a", "b", "c", "d"]) :=
  ⟨⟨by decide, C10_arg_handling.1 ["p", "a", "b", "c", "d"] (by decide)⟩,
   C10_arg_handling.2.1 ["p", "a", "b", "c"],
   ⟨by decide, C10_arg_handling.2.2 ["p", "a", "b", "c", "d"] ["e", "f"] (by decide)⟩⟩

/-- Claim C5 (confirmed): whenever `write_from_file` returns the
would-block status (`0`), the replay cursor has been advanced by exactly
the total number of bytes actually written to the sink socket (partial
final chunks included), and a leading `EINTR` on the socket write is
retried transparently by the chunk-write loop. -/
theorem C5_replay_wouldblock_accounting :
    (∀ (tr : List WriteRes) (contents : List Nat) (pos : Nat),
      (write_from_file tr contents pos).1 = .ok →
      (write_from_file tr contents pos).2.1 = pos + (write_from_file tr contents pos).2.2)
  ∧ (∀ (tr : List WriteRes) (n b : Nat), b ≠ n →
      write_chunk (.eintr :: tr) n b = write_chunk tr n b) := by
  refine ⟨write_from_file_acc, ?_⟩
  intro tr n b hb
  simp [write_chunk, hb]

/-- Witness for C5: a five-byte journal whose chunk is only partially
written (K = 3 of N = 5 bytes) before would-block; the cursor advances by
exactly 3; and an EINTR before the write changes nothing. -/
theorem C5_replay_wouldblock_accounting_w :
    ((write_from_file [.wrote 3, .eagain] [1, 2, 3, 4, 5] 0).1 = .ok
      ∧ (write_from_file [.wrote 3, .eagain] [1, 2, 3, 4, 5] 0).2.1
          = 0 + (write_from_file [.wrote 3, .eagain] [1, 2, 3, 4, 5] 0).2.2)
  ∧ ((0 : Nat) ≠ 5
      ∧ write_chunk [.eintr, .wrote 5] 5 0 = write_chunk [.wrote 5] 5 0) :=
  ⟨⟨by decide,
    C5_replay_wouldblock_accounting.1 [.wrote 3, .eagain] [1, 2, 3, 4, 5] 0 (by decide)⟩,
   ⟨by decide,
    C5_replay_wouldblock_accounting.2 [.wrote 5] 5 0 (by decide)⟩⟩

/-- Claim C3 (code bug, evaluation at the failing input): the listener
setup loop advances through `airesult->ai_next` — the *first* node's
successor — so with two resolved source addresses it visits the first once
and then revisits the second forever without terminating, while with a
single resolved address it visits it exactly once and terminates; the
socket parameters requested per visited address are stream, non-blocking,
close-on-exec, `SO_REUSEADDR`, backlog 1000. -/
theorem C3_listener_loop_eval :
    listener_loop [0, 1] 4 = ([0, 1, 1, 1], false)
  ∧ listener_loop [0, 1] 9 = ([0, 1, 1, 1, 1, 1, 1, 1, 1], false)
  ∧ listener_loop [0] 9 = ([0], true)
  ∧ start_listener_params.sockStream = true
  ∧ start_listener_params.nonblock = true
  ∧ start_listener_params.cloexec = true
  ∧ start_listener_params.reuseaddr = true
  ∧ start_listener_params.backlog = 1000 := by decide

/-- Claim C4, counterexample to "the error is logged": a genuine accept
failure (`ECONNABORTED`, errno 103) after one successful accept produces
no diagnostic action at all — the loop just breaks, and the listener's
watcher is untouched. -/
theorem C4_accept_error_not_logged_cex :
    accept_cb [.conn 7, .aerr 103] = [.startBridge 7]
  ∧ (accept_cb [.conn 7, .aerr 103]).all (fun a => !isAcceptLog a) = true
  ∧ (accept_cb [.conn 7, .aerr 103]).all (fun a => !isStopListener a) = true := by
  decide

/-- Claim C4 as amended (proved): when `accept4` fails with any error, the
accept-drain loop exits for this dispatch having started a bridge for each
previously accepted connection, emits no log line, and never stops the
listener's watcher (the listener remains registered). -/
theorem C4_accept_drain_silent :
    ∀ tr : List AcceptRes,
      accept_cb tr = (tr.takeWhile isConn).filterMap toStart
    ∧ (accept_cb tr).all (fun a => !isAcceptLog a) = true
    ∧ (accept_cb tr).all (fun a => !isStopListener a) = true := by
  intro tr
  induction tr with
  | nil => simp [accept_cb]
  | cons hd tl ih =>
    cases hd with
    | conn fd =>
      refine ⟨?_, ?_, ?_⟩
      · simp [accept_cb, List.takeWhile, isConn, toStart, ih.1]
      · simpa [accept_cb, isAcceptLog] using ih.2.1
      · simpa [accept_cb, isStopListener] using ih.2.2
    | aerr code => simp [accept_cb, List.takeWhile, isConn]

/-- Claim C2, counterexample: a bridge whose dialed destination peer is
`127.0.0.1:80` but whose destination socket got the local address
`10.0.0.1:5555` opens the destination journal under `10.0.0.1:5555` — the
`getsockname` key — which differs from the formatter's key for the
destination peer endpoint. -/
theorem C2_dest_journal_name_cex :
    bridge_init_journal_names (.v4 192 168 0 7 40000) 16
        (.v4 127 0 0 1 80) (.v4 10 0 0 1 5555) 16
      = .ok ("192.168.0.7:40000", "10.0.0.1:5555")
  ∧ satos (.v4 127 0 0 1 80) 16 = .ok "127.0.0.1:80"
  ∧ ("10.0.0.1:5555" == "127.0.0.1:80") = false :=
  ⟨rfl, rfl, by decide⟩

/-- Claim C2 as amended (proved): the destination-direction journal opened
at bridge creation is named by the address formatter's key for the *local*
address of the destination socket (the `getsockname` result), and the
chosen names are entirely independent of the dialed destination peer
endpoint. -/
theorem C2_dest_journal_named_by_local_address :
    ∀ (srcaddr : SockAddr) (srclen : Nat) (peer1 peer2 destLocal : SockAddr)
      (locallen : Nat) (sName dName : String),
      satos srcaddr srclen = .ok sName →
      satos destLocal locallen = .ok dName →
      bridge_init_journal_names srcaddr srclen peer1 destLocal locallen = .ok (sName, dName)
    ∧ bridge_init_journal_names srcaddr srclen peer1 destLocal locallen
        = bridge_init_journal_names srcaddr srclen peer2 destLocal locallen := by
  intro srcaddr srclen peer1 peer2 destLocal locallen sName dName h1 h2
  constructor
  · simp only [bridge_init_journal_names, h1, h2]
    rfl
  · simp [bridge_init_journal_names]

/-- Witness for the amended C2. -/
theorem C2_dest_journal_named_by_local_address_w :
    satos (.v4 192 168 0 7 40000) 16 = .ok "192.168.0.7:40000"
  ∧ satos (.v4 10 0 0 1 5555) 16 = .ok "10.0.0.1:5555"
  ∧ (bridge_init_journal_names (.v4 192 168 0 7 40000) 16
        (.v4 127 0 0 1 80) (.v4 10 0 0 1 5555) 16
        = .ok ("192.168.0.7:40000", "10.0.0.1:5555")
    ∧ bridge_init_journal_names (.v4 192 168 0 7 40000) 16
        (.v4 127 0 0 1 80) (.v4 10 0 0 1 5555) 16
        = bridge_init_journal_names (.v4 192 168 0 7 40000) 16
            (.v4 9 9 9 9 9) (.v4 10 0 0 1 5555) 16) :=
  ⟨rfl, rfl,
   C2_dest_journal_named_by_local_address (.v4 192 168 0 7 40000) 16
     (.v4 127 0 0 1 80) (.v4 9 9 9 9 9) (.v4 10 0 0 1 5555) 16
     "192.168.0.7:40000" "10.0.0.1:5555" rfl rfl⟩

/-- Claim C1 (code bug, evaluation at the failing input): a read on the
source socket failing with an unrecoverable errno (neither `EINTR` nor
`EAGAIN`/`EWOULDBLOCK`) is returned by `read_into_file` as `FILE_EOF`
(line 343) — contradicting that function's own documented contract of
`FILE_ERROR` on error — and the dispatch therefore treats it as a peer
EOF: it shuts down the source read half and the bridge survives the
dispatch (outcome `ok`, no watcher-stops-plus-closes of `bridge_fini`),
instead of being destroyed. -/
theorem C1_read_error_treated_as_eof :
    read_into_file [ReadRes.rerr] [] 0 = (FStatus.fileEof, [], 0)
  ∧ (bridge_cb (bridge_init [] [] true) false 0 [ReadRes.rerr] [ReadRes.eagain] [] []).outcome
      = Outcome.ok
  ∧ (bridge_cb (bridge_init [] [] true) false 0 [ReadRes.rerr] [ReadRes.eagain] [] []).state.eofFromSource
      = true
  ∧ ((bridge_cb (bridge_init [] [] true) false 0 [ReadRes.rerr] [ReadRes.eagain] [] []).acts.contains
      Act.shutdownSrcRd) = true
  ∧ ((bridge_cb (bridge_init [] [] true) false 0 [ReadRes.rerr] [ReadRes.eagain] [] []).acts.contains
      Act.closeSrcFd) = false
  ∧ ((bridge_cb (bridge_init [] [] true) false 0 [ReadRes.rerr] [ReadRes.eagain] [] []).acts.contains
      Act.closeSrcFile) = false := by
  decide

/-- The state recorded by `recalibrate` in both of its outcomes. -/
theorem recalibrate_state (s : Bridge) (eofSrc srcFlushed eofDest destFlushed : Bool)
    (sf df : List Nat) (sp dp : Nat) (acts : List Act) :
    (recalibrate s eofSrc srcFlushed eofDest destFlushed sf df sp dp acts).state
      = { srcFile := sf, destFile := df, srcPos := sp, destPos := dp,
          eofFromSource := eofSrc, sourceFlushed := srcFlushed,
          connectedToDestination := s.connectedToDestination,
          eofFromDestination := eofDest, destinationFlushed := destFlushed,
          srcEvents := ⟨!eofSrc, !destFlushed⟩, destEvents := ⟨!eofDest, !srcFlushed⟩ } := by
  unfold recalibrate
  by_cases h : (IOMask.isEmpty ⟨!eofSrc, !destFlushed⟩
      && IOMask.isEmpty ⟨!eofDest, !srcFlushed⟩) = true
  · simp [h]
  · simp [h]

/-- Claim C8 (confirmed): each journal's replay cursor never exceeds its
write cursor (the end-of-file offset): `open_output_file` initialises the
cursor to the current end offset, `read_into_file` only appends (it does
not touch the cursor, which is not even passed to it), `write_from_file`
advances the cursor only within the file, and a full `bridge_cb` dispatch
preserves `replay_cursor ≤ write_cursor` for both journals. -/
theorem C8_replay_cursor_le_write_cursor :
    (∀ contents : List Nat,
      (open_output_file contents).2 = (open_output_file contents).1.length)
  ∧ (∀ (tr : List ReadRes) (f : List Nat) (c : Nat),
      ∃ d, (read_into_file tr f c).2.1 = f ++ d)
  ∧ (∀ (tr : List WriteRes) (f : List Nat) (p : Nat), p ≤ f.length →
      p ≤ (write_from_file tr f p).2.1 ∧ (write_from_file tr f p).2.1 ≤ f.length)
  ∧ (∀ (s : Bridge) (evE : Bool) (soErr : Nat) (srcRd dstRd : List ReadRes)
      (dstWr srcWr : List WriteRes),
      s.srcPos ≤ s.srcFile.length → s.destPos ≤ s.destFile.length →
      (bridge_cb s evE soErr srcRd dstRd dstWr srcWr).state.srcPos
          ≤ (bridge_cb s evE soErr srcRd dstRd dstWr srcWr).state.srcFile.length
      ∧ (bridge_cb s evE soErr srcRd dstRd dstWr srcWr).state.destPos
          ≤ (bridge_cb s evE soErr srcRd dstRd dstWr srcWr).state.destFile.length) := by
  refine ⟨fun contents => rfl, read_into_file_extends, write_from_file_bounds, ?_⟩
  intro s evE soErr srcRd dstRd dstWr srcWr h1 h2
  have hA : s.srcPos ≤ (drain_step s.eofFromSource srcRd s.srcFile).2.1.length :=
    le_trans h1 (drain_step_len s.eofFromSource srcRd s.srcFile)
  have hB := replay_step_bounds s.sourceFlushed
    (drain_step s.eofFromSource srcRd s.srcFile).2.2 dstWr
    (drain_step s.eofFromSource srcRd s.srcFile).2.1 s.srcPos hA
  have hC : s.destPos ≤ (drain_step s.eofFromDestination dstRd s.destFile).2.1.length :=
    le_trans h2 (drain_step_len s.eofFromDestination dstRd s.destFile)
  have hD := replay_step_bounds s.destinationFlushed
    (drain_step s.eofFromDestination dstRd s.destFile).2.2 srcWr
    (drain_step s.eofFromDestination dstRd s.destFile).2.1 s.destPos hC
  unfold bridge_cb
  by_cases hev : evE = true
  · simp only [hev, if_true, ite_true]
    exact ⟨h1, h2⟩
  · simp only [hev, if_false, Bool.false_eq_true, ite_false]
    by_cases hcn : s.connectedToDestination = false
    · simp only [hcn, if_true, ite_true]
      by_cases hso : soErr = 0
      · simp only [hso, if_true, ite_true]
        exact ⟨h1, h2⟩
      · simp only [hso, if_false, ite_false]
        exact ⟨h1, h2⟩
    · simp only [hcn, Bool.true_eq_false, if_false, ite_false]
      by_cases hr1 : (drain_step s.eofFromSource srcRd s.srcFile).1 = FStatus.traceEnd
      · simp only [hr1, if_true, ite_true]
        exact ⟨hA, h2⟩
      · simp only [hr1, if_false, ite_false]
        by_cases hr2 : (replay_step s.sourceFlushed
            (drain_step s.eofFromSource srcRd s.srcFile).2.2 dstWr
            (drain_step s.eofFromSource srcRd s.srcFile).2.1 s.srcPos).1
            = FStatus.traceEnd
        · simp only [hr2, if_true, ite_true]
          exact ⟨hB.2, h2⟩
        · simp only [hr2, if_false, ite_false]
          by_cases hr2e : (replay_step s.sourceFlushed
              (drain_step s.eofFromSource srcRd s.srcFile).2.2 dstWr
              (drain_step s.eofFromSource srcRd s.srcFile).2.1 s.srcPos).1
              = FStatus.fileError
          · simp only [hr2e, if_true, ite_true]
            exact ⟨hB.2, h2⟩
          · simp only [hr2e, if_false, ite_false]
            by_cases hr3 : (drain_step s.eofFromDestination dstRd s.destFile).1
                = FStatus.traceEnd
            · simp only [hr3, if_true, ite_true]
              exact ⟨hB.2, hC⟩
            · simp only [hr3, if_false, ite_false]
              by_cases hr4 : (replay_step s.destinationFlushed
                  (drain_step s.eofFromDestination dstRd s.destFile).2.2 srcWr
                  (drain_step s.eofFromDestination dstRd s.destFile).2.1 s.destPos).1
                  = FStatus.traceEnd
              · simp only [hr4, if_true, ite_true]
                exact ⟨hB.2, hD.2⟩
              · simp only [hr4, if_false, ite_false]
                by_cases hr4e : (replay_step s.destinationFlushed
                    (drain_step s.eofFromDestination dstRd s.destFile).2.2 srcWr
                    (drain_step s.eofFromDestination dstRd s.destFile).2.1 s.destPos).1
                    = FStatus.fileError
                · simp only [hr4e, if_true, ite_true]
                  exact ⟨hB.2, hD.2⟩
                · simp only [hr4e, if_false, ite_false]
                  rw [recalibrate_state]
                  exact ⟨hB.2, hD.2⟩

/-- Witness for C8's hypotheses at a concrete dispatch: a bridge with a
one-byte backlog in the source journal whose replay would-blocks after
writing nothing. -/
theorem C8_replay_cursor_le_write_cursor_w :
    ((0 : Nat) ≤ ([] : List Nat).length
      ∧ (0 : Nat) ≤ (write_from_file [.eagain] [] 0).2.1
      ∧ (write_from_file [.eagain] [] 0).2.1 ≤ ([] : List Nat).length)
  ∧ ((bridge_init [7] [] true).srcPos ≤ (bridge_init [7] [] true).srcFile.length
      ∧ (bridge_init [7] [] true).destPos ≤ (bridge_init [7] [] true).destFile.length
      ∧ (bridge_cb (bridge_init [7] [] true) false 0 [.eagain] [.eagain] [.eagain] []).state.srcPos
          ≤ (bridge_cb (bridge_init [7] [] true) false 0 [.eagain] [.eagain] [.eagain] []).state.srcFile.length
      ∧ (bridge_cb (bridge_init [7] [] true) false 0 [.eagain] [.eagain] [.eagain] []).state.destPos
          ≤ (bridge_cb (bridge_init [7] [] true) false 0 [.eagain] [.eagain] [.eagain] []).state.destFile.length) :=
  ⟨⟨by decide, C8_replay_cursor_le_write_cursor.2.2.1 [.eagain] [] 0 (by decide)⟩,
   ⟨by decide, by decide,
    C8_replay_cursor_le_write_cursor.2.2.2 (bridge_init [7] [] true) false 0
      [.eagain] [.eagain] [.eagain] [] (by decide) (by decide)⟩⟩

/-- Membership in a conditional singleton action list. -/
theorem mem_ite_singleton_iff {α : Type} {c : Prop} [Decidable c] (x y : α) :
    (y ∈ if c then [x] else []) ↔ (c ∧ y = x) := by
  split <;> simp_all

/-- `recalibrate` adds only watcher-control and `bridge_fini` actions, so
membership of any other action reduces to the incoming prefix. -/
theorem recalibrate_mem_acts (s : Bridge) (eofSrc srcFlushed eofDest destFlushed : Bool)
    (sf df : List Nat) (sp dp : Nat) (acts : List Act) (a : Act)
    (h1 : a ≠ Act.stopSrcWatcher) (h2 : a ≠ Act.startSrcWatcher)
    (h3 : a ≠ Act.stopDestWatcher) (h4 : a ≠ Act.startDestWatcher)
    (h5 : a ≠ Act.closeSrcFd) (h6 : a ≠ Act.closeDestFd)
    (h7 : a ≠ Act.closeSrcFile) (h8 : a ≠ Act.closeDestFile) :
    (a ∈ (recalibrate s eofSrc srcFlushed eofDest destFlushed sf df sp dp acts).acts
      ↔ a ∈ acts) := by
  simp only [recalibrate]
  split_ifs <;> simp_all [bridge_fini_acts]

/-- Claim C6 (confirmed): the write half of a peer socket is shut down only
on a dispatch whose source-to-destination replay step reported Drained with
EOF already seen from the source.  Concretely: whenever a dispatch performs
`shutdown(dest, SHUT_WR)`, in the resulting state the source-journal replay
cursor equals the source journal's length (no undelivered bytes) and
`eofFromSource` holds — and symmetrically for `shutdown(src, SHUT_WR)`.
The side conditions (`cursor ≤ length`, and a flushed direction's cursor
sitting at end-of-file) are the state invariants, shown to hold for every
freshly created bridge in the first conjunct. -/
theorem C6_shutdown_only_after_drain :
    (∀ (a b : List Nat) (conn : Bool),
      (bridge_init a b conn).srcPos ≤ (bridge_init a b conn).srcFile.length
      ∧ (bridge_init a b conn).destPos ≤ (bridge_init a b conn).destFile.length
      ∧ ((bridge_init a b conn).sourceFlushed = true →
          (bridge_init a b conn).srcPos = (bridge_init a b conn).srcFile.length)
      ∧ ((bridge_init a b conn).destinationFlushed = true →
          (bridge_init a b conn).destPos = (bridge_init a b conn).destFile.length))
  ∧ (∀ (s : Bridge) (evE : Bool) (soErr : Nat) (srcRd dstRd : List ReadRes)
      (dstWr srcWr : List WriteRes),
      s.srcPos ≤ s.srcFile.length →
      s.destPos ≤ s.destFile.length →
      (s.sourceFlushed = true → s.srcPos = s.srcFile.length) →
      (s.destinationFlushed = true → s.destPos = s.destFile.length) →
      (Act.shutdownDestWr ∈ (bridge_cb s evE soErr srcRd dstRd dstWr srcWr).acts →
        (bridge_cb s evE soErr srcRd dstRd dstWr srcWr).state.srcPos
          = (bridge_cb s evE soErr srcRd dstRd dstWr srcWr).state.srcFile.length
        ∧ (bridge_cb s evE soErr srcRd dstRd dstWr srcWr).state.eofFromSource = true)
      ∧ (Act.shutdownSrcWr ∈ (bridge_cb s evE soErr srcRd dstRd dstWr srcWr).acts →
        (bridge_cb s evE soErr srcRd dstRd dstWr srcWr).state.destPos
          = (bridge_cb s evE soErr srcRd dstRd dstWr srcWr).state.destFile.length
        ∧ (bridge_cb s evE soErr srcRd dstRd dstWr srcWr).state.eofFromDestination = true)) := by
  constructor
  · intro a b conn
    exact ⟨le_refl _, le_refl _, fun _ => rfl, fun _ => rfl⟩
  intro s evE soErr srcRd dstRd dstWr srcWr h1 h2 h3 h4
  have hA : s.srcPos ≤ (drain_step s.eofFromSource srcRd s.srcFile).2.1.length :=
    le_trans h1 (drain_step_len s.eofFromSource srcRd s.srcFile)
  have hC : s.destPos ≤ (drain_step s.eofFromDestination dstRd s.destFile).2.1.length :=
    le_trans h2 (drain_step_len s.eofFromDestination dstRd s.destFile)
  have hE : s.sourceFlushed = true → (drain_step s.eofFromSource srcRd s.srcFile).2.2 = 0 →
      s.srcPos = (drain_step s.eofFromSource srcRd s.srcFile).2.1.length := by
    intro hf hc
    rw [drain_step_count_zero s.eofFromSource srcRd s.srcFile hc]
    exact h3 hf
  have hF : s.destinationFlushed = true →
      (drain_step s.eofFromDestination dstRd s.destFile).2.2 = 0 →
      s.destPos = (drain_step s.eofFromDestination dstRd s.destFile).2.1.length := by
    intro hf hc
    rw [drain_step_count_zero s.eofFromDestination dstRd s.destFile hc]
    exact h4 hf
  have hSrcEof := replay_step_eof s.sourceFlushed
    (drain_step s.eofFromSource srcRd s.srcFile).2.2 dstWr
    (drain_step s.eofFromSource srcRd s.srcFile).2.1 s.srcPos hA hE
  have hDestEof := replay_step_eof s.destinationFlushed
    (drain_step s.eofFromDestination dstRd s.destFile).2.2 srcWr
    (drain_step s.eofFromDestination dstRd s.destFile).2.1 s.destPos hC hF
  unfold bridge_cb
  by_cases hev : evE = true
  · simp only [hev, if_true, ite_true]
    refine ⟨fun hmem => ?_, fun hmem => ?_⟩ <;> simp [bridge_fini_acts] at hmem
  · simp only [hev, if_false, Bool.false_eq_true, ite_false]
    by_cases hcn : s.connectedToDestination = false
    · simp only [hcn, if_true, ite_true]
      by_cases hso : soErr = 0
      · simp only [hso, if_true, ite_true]
        refine ⟨fun hmem => ?_, fun hmem => ?_⟩ <;> simp at hmem
      · simp only [hso, if_false, ite_false]
        refine ⟨fun hmem => ?_, fun hmem => ?_⟩ <;> simp [bridge_fini_acts] at hmem
    · simp only [hcn, Bool.true_eq_false, if_false, ite_false]
      by_cases hr1 : (drain_step s.eofFromSource srcRd s.srcFile).1 = FStatus.traceEnd
      · simp only [hr1, if_true, ite_true]
        refine ⟨fun hmem => ?_, fun hmem => ?_⟩ <;> simp at hmem
      · simp only [hr1, if_false, ite_false]
        by_cases hr2 : (replay_step s.sourceFlushed
            (drain_step s.eofFromSource srcRd s.srcFile).2.2 dstWr
            (drain_step s.eofFromSource srcRd s.srcFile).2.1 s.srcPos).1
            = FStatus.traceEnd
        · simp only [hr2, if_true, ite_true]
          refine ⟨fun hmem => ?_, fun hmem => ?_⟩ <;>
            simp [mem_ite_singleton_iff] at hmem
        · simp only [hr2, if_false, ite_false]
          by_cases hr2e : (replay_step s.sourceFlushed
              (drain_step s.eofFromSource srcRd s.srcFile).2.2 dstWr
              (drain_step s.eofFromSource srcRd s.srcFile).2.1 s.srcPos).1
              = FStatus.fileError
          · simp only [hr2e, if_true, ite_true]
            refine ⟨fun hmem => ?_, fun hmem => ?_⟩ <;>
              simp [bridge_fini_acts, mem_ite_singleton_iff] at hmem
          · simp only [hr2e, if_false, ite_false]
            by_cases hr3 : (drain_step s.eofFromDestination dstRd s.destFile).1
                = FStatus.traceEnd
            · simp only [hr3, if_true, ite_true]
              refine ⟨fun hmem => ?_, fun hmem => ?_⟩
              · have hb : (decide ((replay_step s.sourceFlushed
                    (drain_step s.eofFromSource srcRd s.srcFile).2.2 dstWr
                    (drain_step s.eofFromSource srcRd s.srcFile).2.1 s.srcPos).1
                      = FStatus.fileEof)
                    && (s.eofFromSource
                      || decide ((drain_step s.eofFromSource srcRd s.srcFile).1
                          = FStatus.fileEof))) = true := by
                  by_contra hb
                  simp [mem_ite_singleton_iff, hb] at hmem
                have hb2 := hb
                simp only [Bool.and_eq_true, decide_eq_true_eq] at hb2
                refine ⟨?_, ?_⟩
                · simpa using hSrcEof hb2.1
                · simpa using hb2.2
              · simp [mem_ite_singleton_iff] at hmem
            · simp only [hr3, if_false, ite_false]
              by_cases hr4 : (replay_step s.destinationFlushed
                  (drain_step s.eofFromDestination dstRd s.destFile).2.2 srcWr
                  (drain_step s.eofFromDestination dstRd s.destFile).2.1 s.destPos).1
                  = FStatus.traceEnd
              · simp only [hr4, if_true, ite_true]
                refine ⟨fun hmem => ?_, fun hmem => ?_⟩
                · have hb : (decide ((replay_step s.sourceFlushed
                      (drain_step s.eofFromSource srcRd s.srcFile).2.2 dstWr
                      (drain_step s.eofFromSource srcRd s.srcFile).2.1 s.srcPos).1
                        = FStatus.fileEof)
                      && (s.eofFromSource
                        || decide ((drain_step s.eofFromSource srcRd s.srcFile).1
                            = FStatus.fileEof))) = true := by
                    by_contra hb
                    simp [mem_ite_singleton_iff, hb] at hmem
                  have hb2 := hb
                  simp only [Bool.and_eq_true, decide_eq_true_eq] at hb2
                  refine ⟨?_, ?_⟩
                  · simpa using hSrcEof hb2.1
                  · simpa using hb2.2
                · simp [mem_ite_singleton_iff] at hmem
              · simp only [hr4, if_false, ite_false]
                by_cases hr4e : (replay_step s.destinationFlushed
                    (drain_step s.eofFromDestination dstRd s.destFile).2.2 srcWr
                    (drain_step s.eofFromDestination dstRd s.destFile).2.1 s.destPos).1
                    = FStatus.fileError
                · simp only [hr4e, if_true, ite_true]
                  refine ⟨fun hmem => ?_, fun hmem => ?_⟩
                  · have hb : (decide ((replay_step s.sourceFlushed
                        (drain_step s.eofFromSource srcRd s.srcFile).2.2 dstWr
                        (drain_step s.eofFromSource srcRd s.srcFile).2.1 s.srcPos).1
                          = FStatus.fileEof)
                        && (s.eofFromSource
                          || decide ((drain_step s.eofFromSource srcRd s.srcFile).1
                              = FStatus.fileEof))) = true := by
                      by_contra hb
                      simp [mem_ite_singleton_iff, hb, bridge_fini_acts] at hmem
                    have hb2 := hb
                    simp only [Bool.and_eq_true, decide_eq_true_eq] at hb2
                    refine ⟨?_, ?_⟩
                    · simpa using hSrcEof hb2.1
                    · simpa using hb2.2
                  · simp [mem_ite_singleton_iff, bridge_fini_acts] at hmem
                · simp only [hr4e, if_false, ite_false]
                  refine ⟨fun hmem => ?_, fun hmem => ?_⟩
                  · rw [recalibrate_mem_acts _ _ _ _ _ _ _ _ _ _ _
                      (by decide) (by decide) (by decide) (by decide)
                      (by decide) (by decide) (by decide) (by decide)] at hmem
                    have hb : (decide ((replay_step s.sourceFlushed
                        (drain_step s.eofFromSource srcRd s.srcFile).2.2 dstWr
                        (drain_step s.eofFromSource srcRd s.srcFile).2.1 s.srcPos).1
                          = FStatus.fileEof)
                        && (s.eofFromSource
                          || decide ((drain_step s.eofFromSource srcRd s.srcFile).1
                              = FStatus.fileEof))) = true := by
                      by_contra hb
                      simp [mem_ite_singleton_iff, hb] at hmem
                    have hb2 := hb
                    simp only [Bool.and_eq_true, decide_eq_true_eq] at hb2
                    rw [recalibrate_state]
                    refine ⟨?_, ?_⟩
                    · simpa using hSrcEof hb2.1
                    · simpa using hb2.2
                  · rw [recalibrate_mem_acts _ _ _ _ _ _ _ _ _ _ _
                      (by decide) (by decide) (by decide) (by decide)
                      (by decide) (by decide) (by decide) (by decide)] at hmem
                    have hb : (decide ((replay_step s.destinationFlushed
                        (drain_step s.eofFromDestination dstRd s.destFile).2.2 srcWr
                        (drain_step s.eofFromDestination dstRd s.destFile).2.1 s.destPos).1
                          = FStatus.fileEof)
                        && (s.eofFromDestination
                          || decide ((drain_step s.eofFromDestination dstRd s.destFile).1
                              = FStatus.fileEof))) = true := by
                      by_contra hb
                      simp [mem_ite_singleton_iff, hb] at hmem
                    have hb2 := hb
                    simp only [Bool.and_eq_true, decide_eq_true_eq] at hb2
                    rw [recalibrate_state]
                    refine ⟨?_, ?_⟩
                    · simpa using hDestEof hb2.1
                    · simpa using hb2.2

/-- Witness for C6: a fresh connected bridge whose source read errors
(treated as EOF) while everything is already drained; that dispatch
performs `shutdown(dest, SHUT_WR)` and indeed ends with the source cursor
at end-of-journal and `eofFromSource` set. -/
theorem C6_shutdown_only_after_drain_w :
    ((bridge_init [] [] true).srcPos ≤ (bridge_init [] [] true).srcFile.length
      ∧ (bridge_init [] [] true).destPos ≤ (bridge_init [] [] true).destFile.length
      ∧ ((bridge_init [] [] true).sourceFlushed = true →
          (bridge_init [] [] true).srcPos = (bridge_init [] [] true).srcFile.length)
      ∧ ((bridge_init [] [] true).destinationFlushed = true →
          (bridge_init [] [] true).destPos = (bridge_init [] [] true).destFile.length))
  ∧ Act.shutdownDestWr
      ∈ (bridge_cb (bridge_init [] [] true) false 0 [.rerr] [.eagain] [] []).acts
  ∧ ((bridge_cb (bridge_init [] [] true) false 0 [.rerr] [.eagain] [] []).state.srcPos
      = (bridge_cb (bridge_init [] [] true) false 0
          [.rerr] [.eagain] [] []).state.srcFile.length
    ∧ (bridge_cb (bridge_init [] [] true) false 0
        [.rerr] [.eagain] [] []).state.eofFromSource = true) :=
  ⟨⟨by decide, by decide, by decide, by decide⟩, by decide,
   (C6_shutdown_only_after_drain.2 (bridge_init [] [] true) false 0
      [.rerr] [.eagain] [] [] (by decide) (by decide) (by decide) (by decide)).1
     (by decide)⟩

/-- `noLogErr` distributes over append. -/
theorem noLogErr_append (l1 l2 : List Act) :
    noLogErr (l1 ++ l2) = (noLogErr l1 && noLogErr l2) := by
  induction l1 with
  | nil => simp [noLogErr]
  | cons hd tl ih => cases hd <;> simp [noLogErr, ih]

/-- Mask recomputation facts for `recalibrate`: the stored masks follow the
four state bits; a recomputed-empty mask that changed yields a watcher
stop; and the bridge is destroyed exactly when both recomputed masks are
empty. -/
theorem recalibrate_spec (s : Bridge) (eofSrc srcFlushed eofDest destFlushed : Bool)
    (sf df : List Nat) (sp dp : Nat) (acts : List Act) :
    (recalibrate s eofSrc srcFlushed eofDest destFlushed sf df sp dp acts).state.srcEvents
      = ⟨!eofSrc, !destFlushed⟩
  ∧ (recalibrate s eofSrc srcFlushed eofDest destFlushed sf df sp dp acts).state.destEvents
      = ⟨!eofDest, !srcFlushed⟩
  ∧ ((IOMask.isEmpty ⟨!eofSrc, !destFlushed⟩ = true
      ∧ s.srcEvents ≠ (⟨!eofSrc, !destFlushed⟩ : IOMask)) →
      Act.stopSrcWatcher
        ∈ (recalibrate s eofSrc srcFlushed eofDest destFlushed sf df sp dp acts).acts)
  ∧ ((IOMask.isEmpty ⟨!eofDest, !srcFlushed⟩ = true
      ∧ s.destEvents ≠ (⟨!eofDest, !srcFlushed⟩ : IOMask)) →
      Act.stopDestWatcher
        ∈ (recalibrate s eofSrc srcFlushed eofDest destFlushed sf df sp dp acts).acts)
  ∧ ((IOMask.isEmpty ⟨!eofSrc, !destFlushed⟩ = true
      ∧ IOMask.isEmpty ⟨!eofDest, !srcFlushed⟩ = true)
      ↔ (recalibrate s eofSrc srcFlushed eofDest destFlushed sf df sp dp acts).outcome
          = Outcome.destroyed) := by
  simp only [recalibrate]
  split_ifs <;> simp_all

/-- Claim C7 (confirmed): on a dispatch of a connected bridge that
completes its four transfer steps (outcome `ok`, or a destroy without any
error diagnostic, i.e. the terminal destroy), the stored interest masks
are recomputed as: source read iff `¬eofFromSource`, source write iff
`¬destinationFlushed`, destination read iff `¬eofFromDestination`,
destination write iff `¬sourceFlushed`; a socket whose recomputed mask is
empty and changed has its watcher stopped; and the bridge is destroyed
exactly when both recomputed masks are empty. -/
theorem C7_mask_recomputation :
    ∀ (s : Bridge) (soErr : Nat) (srcRd dstRd : List ReadRes) (dstWr srcWr : List WriteRes),
    s.connectedToDestination = true →
    ((bridge_cb s false soErr srcRd dstRd dstWr srcWr).outcome = Outcome.ok
      ∨ ((bridge_cb s false soErr srcRd dstRd dstWr srcWr).outcome = Outcome.destroyed
        ∧ noLogErr (bridge_cb s false soErr srcRd dstRd dstWr srcWr).acts = true)) →
    (bridge_cb s false soErr srcRd dstRd dstWr srcWr).state.srcEvents
      = ⟨!(bridge_cb s false soErr srcRd dstRd dstWr srcWr).state.eofFromSource,
         !(bridge_cb s false soErr srcRd dstRd dstWr srcWr).state.destinationFlushed⟩
    ∧ (bridge_cb s false soErr srcRd dstRd dstWr srcWr).state.destEvents
      = ⟨!(bridge_cb s false soErr srcRd dstRd dstWr srcWr).state.eofFromDestination,
         !(bridge_cb s false soErr srcRd dstRd dstWr srcWr).state.sourceFlushed⟩
    ∧ (((bridge_cb s false soErr srcRd dstRd dstWr srcWr).state.srcEvents.isEmpty = true
        ∧ s.srcEvents ≠ (bridge_cb s false soErr srcRd dstRd dstWr srcWr).state.srcEvents) →
        Act.stopSrcWatcher ∈ (bridge_cb s false soErr srcRd dstRd dstWr srcWr).acts)
    ∧ (((bridge_cb s false soErr srcRd dstRd dstWr srcWr).state.destEvents.isEmpty = true
        ∧ s.destEvents ≠ (bridge_cb s false soErr srcRd dstRd dstWr srcWr).state.destEvents) →
        Act.stopDestWatcher ∈ (bridge_cb s false soErr srcRd dstRd dstWr srcWr).acts)
    ∧ (((bridge_cb s false soErr srcRd dstRd dstWr srcWr).state.srcEvents.isEmpty = true
        ∧ (bridge_cb s false soErr srcRd dstRd dstWr srcWr).state.destEvents.isEmpty = true)
        ↔ (bridge_cb s false soErr srcRd dstRd dstWr srcWr).outcome = Outcome.destroyed) := by
  intro s soErr srcRd dstRd dstWr srcWr hconn hout
  unfold bridge_cb at hout ⊢
  simp only [Bool.false_eq_true, if_false, ite_false, hconn, Bool.true_eq_false] at hout ⊢
  by_cases hr1 : (drain_step s.eofFromSource srcRd s.srcFile).1 = FStatus.traceEnd
  · simp only [hr1, if_true, ite_true] at hout ⊢
    simp [noLogErr] at hout
  · simp only [hr1, if_false, ite_false] at hout ⊢
    by_cases hr2 : (replay_step s.sourceFlushed
        (drain_step s.eofFromSource srcRd s.srcFile).2.2 dstWr
        (drain_step s.eofFromSource srcRd s.srcFile).2.1 s.srcPos).1
        = FStatus.traceEnd
    · simp only [hr2, if_true, ite_true] at hout ⊢
      simp [noLogErr_append, noLogErr, mem_ite_singleton_iff] at hout
    · simp only [hr2, if_false, ite_false] at hout ⊢
      by_cases hr2e : (replay_step s.sourceFlushed
          (drain_step s.eofFromSource srcRd s.srcFile).2.2 dstWr
          (drain_step s.eofFromSource srcRd s.srcFile).2.1 s.srcPos).1
          = FStatus.fileError
      · simp only [hr2e, if_true, ite_true] at hout ⊢
        simp [noLogErr_append, noLogErr, bridge_fini_acts] at hout
      · simp only [hr2e, if_false, ite_false] at hout ⊢
        by_cases hr3 : (drain_step s.eofFromDestination dstRd s.destFile).1
            = FStatus.traceEnd
        · simp only [hr3, if_true, ite_true] at hout ⊢
          simp [noLogErr] at hout
        · simp only [hr3, if_false, ite_false] at hout ⊢
          by_cases hr4 : (replay_step s.destinationFlushed
              (drain_step s.eofFromDestination dstRd s.destFile).2.2 srcWr
              (drain_step s.eofFromDestination dstRd s.destFile).2.1 s.destPos).1
              = FStatus.traceEnd
          · simp only [hr4, if_true, ite_true] at hout ⊢
            simp [noLogErr] at hout
          · simp only [hr4, if_false, ite_false] at hout ⊢
            by_cases hr4e : (replay_step s.destinationFlushed
                (drain_step s.eofFromDestination dstRd s.destFile).2.2 srcWr
                (drain_step s.eofFromDestination dstRd s.destFile).2.1 s.destPos).1
                = FStatus.fileError
            · simp only [hr4e, if_true, ite_true] at hout ⊢
              simp [noLogErr_append, noLogErr, bridge_fini_acts] at hout
            · simp only [hr4e, if_false, ite_false] at hout ⊢
              refine ⟨?_, ?_, ?_, ?_, ?_⟩
              · rw [recalibrate_state]
              · rw [recalibrate_state]
              · intro hc
                rw [recalibrate_state] at hc
                dsimp only at hc
                exact (recalibrate_spec _ _ _ _ _ _ _ _ _ _).2.2.1 hc
              · intro hc
                rw [recalibrate_state] at hc
                dsimp only at hc
                exact (recalibrate_spec _ _ _ _ _ _ _ _ _ _).2.2.2.1 hc
              · rw [recalibrate_state]
                dsimp only
                exact (recalibrate_spec _ _ _ _ _ _ _ _ _ _).2.2.2.2

/-- Witness for C7: the example bridge receives destination EOF on a
dispatch, everything drains, both recomputed masks are empty, and the
dispatch is a terminal destroy with no error diagnostic. -/
theorem C7_mask_recomputation_w :
    exampleTerminalBridge.connectedToDestination = true
  ∧ ((bridge_cb exampleTerminalBridge false 0 [] [.chunk []] [] []).outcome
        = Outcome.destroyed
      ∧ noLogErr (bridge_cb exampleTerminalBridge false 0 [] [.chunk []] [] []).acts = true)
  ∧ (((bridge_cb exampleTerminalBridge false 0 [] [.chunk []] [] []).state.srcEvents.isEmpty
        = true
      ∧ (bridge_cb exampleTerminalBridge false 0 [] [.chunk []] [] []).state.destEvents.isEmpty
        = true)
      ↔ (bridge_cb exampleTerminalBridge false 0 [] [.chunk []] [] []).outcome
          = Outcome.destroyed) :=
  ⟨rfl, ⟨by decide, by decide⟩,
   (C7_mask_recomputation exampleTerminalBridge 0 [] [.chunk []] [] [] rfl
     (Or.inr ⟨by decide, by decide⟩)).2.2.2.2⟩
